import Mathlib

/-!
Verification development for the NewSight navigation backend
(`app/services/navigation_service.py`).

The Python source is shallowly embedded:
* string heuristics (`_clean_destination`, `_is_generic_place_name`) become
  computable functions on `String`;
* the session store `self.active_navigations` becomes a function
  `String → Option NavState`, mutated by explicit state passing;
* the geodesy helper `_haversine_distance` is embedded twice: exactly, over
  `ℝ` with real trigonometric functions (for the metric properties), and as
  an explicit parameter `dist` of the session-store operations (the session
  logic depends on the haversine result only through the comparisons it
  performs on the returned distance);
* external HTTP providers (Google Maps, TransitApp) are oracles passed as
  arguments; calls issued to them are recorded in an explicit trace.
-/

namespace NewSight

/-! ### Python string primitives used by the resolver -/

/-- Python `\w` (ASCII): letters, digits and underscore. -/
def isWordChar (c : Char) : Bool := c.isAlphanum || c == '_'

/-- Python `s.strip()`: drop leading and trailing whitespace. -/
def pyStrip (s : String) : String :=
  ⟨(((s.toList.dropWhile (fun c => c.isWhitespace)).reverse.dropWhile
      (fun c => c.isWhitespace)).reverse)⟩

/-- Python `s.lower()`: lowercase every character. -/
def pyLower (s : String) : String := ⟨s.toList.map (fun c => c.toLower)⟩

/-- Python `s.rstrip(chars)`: drop trailing characters belonging to `cs`. -/
def rstripSet (s : String) (cs : List Char) : String :=
  ⟨((s.toList.reverse).dropWhile (fun c => cs.contains c)).reverse⟩

/-- Case-insensitive prefix test of a character pattern against a string. -/
def matchCI : List Char → List Char → Bool
  | [], _ => true
  | _ :: _, [] => false
  | w :: ws, c :: cs => (c.toLower == w.toLower) && matchCI ws cs

/-- The character right after a match of length `n` is not a word character
(or the string ends there): the closing `\b` of the pattern. -/
def boundaryAfter (n : Nat) (s : List Char) : Bool :=
  match List.drop n s with
  | [] => true
  | d :: _ => !isWordChar d

/-- One left-to-right pass of `re.sub(r'\b' + word + r'\b', '', s, flags=IGNORECASE)`
for a non-empty `word = w0 :: wrest`; `prev` is the character preceding the
current position (`none` at the start of the string).  The `fuel` argument only
makes the recursion structural: every step consumes at least one character, so
with `fuel = s.length` the fuel never runs out. -/
def removeWordAux (w0 : Char) (wrest : List Char) : Nat → Option Char → List Char → List Char
  | 0, _, s => s
  | _ + 1, _, [] => []
  | fuel + 1, prev, c :: cs =>
    if (match prev with | none => true | some p => !isWordChar p)
        && matchCI (w0 :: wrest) (c :: cs)
        && boundaryAfter (wrest.length + 1) (c :: cs) then
      removeWordAux w0 wrest fuel
        ((List.take (wrest.length + 1) (c :: cs)).getLast?)
        (List.drop wrest.length cs)
    else
      c :: removeWordAux w0 wrest fuel (some c) cs

/-- Python `re.sub(r'\b' + re.escape(word) + r'\b', '', s, flags=re.IGNORECASE)`. -/
def removeWholeWordCI (word : String) (s : String) : String :=
  match word.toList with
  | [] => s
  | w0 :: wrest => ⟨removeWordAux w0 wrest s.toList.length none s.toList⟩

/-- Python `s.split()`: the maximal whitespace-free tokens of `s`, in order;
`cur` accumulates the characters of the token currently being read (reversed). -/
def pyWordsAux (cur : List Char) : List Char → List (List Char)
  | [] => if cur.isEmpty then [] else [cur.reverse]
  | c :: cs =>
    if c.isWhitespace then
      if cur.isEmpty then pyWordsAux [] cs else cur.reverse :: pyWordsAux [] cs
    else
      pyWordsAux (c :: cur) cs

/-- Python `' '.join(s.split())`: split on whitespace runs, rejoin with single spaces. -/
def squeezeSpaces (s : String) : String :=
  ⟨List.intercalate [' '] (pyWordsAux [] s.toList)⟩

/-! ### Destination resolver heuristics -/

/-- The filler words removed by `_clean_destination`, in source order. -/
def filler_words : List String :=
  ["nearest", "closest", "nearby", "near me", "close by",
   "the", "a", "an", "my", "some", "please", "find", "locate"]

/-- Embedding of `NavigationService._clean_destination`: strip, drop trailing punctuation,
lowercase, remove filler words (whole-word, case-insensitive), squeeze spaces;
fall back to the lowercased input if everything was removed. -/
def clean_destination (destination : String) : String :=
  let cleaned := rstripSet (pyStrip destination) ['.', '!', '?', ',', ';', ':']
  let cleaned := pyLower cleaned
  let cleaned := filler_words.foldl (fun acc w => removeWholeWordCI w acc) cleaned
  let cleaned := pyStrip (squeezeSpaces cleaned)
  if cleaned ≠ "" then cleaned else pyLower destination

/-- The curated generic place terms of `_is_generic_place_name`, in source order. -/
def generic_terms : List String :=
  ["starbucks", "dunkin", "mcdonalds", "subway", "pizza", "restaurant", "cafe", "coffee",
   "burger king", "taco bell", "wendys", "chipotle", "panera", "chick-fil-a",
   "cvs", "walgreens", "walmart", "target", "grocery store", "supermarket",
   "rite aid", "7-eleven", "wawa", "convenience store",
   "bank", "atm", "pharmacy", "post office", "ups store", "fedex",
   "gas station", "auto repair", "car wash",
   "bus stop", "train station", "subway station", "metro station",
   "transit center", "bus station", "septa",
   "hospital", "urgent care", "clinic", "doctor", "dentist", "pharmacy",
   "gym", "library", "park", "playground", "museum", "movie theater", "cinema",
   "hotel", "motel", "bar", "pub", "nightclub",
   "church", "mosque", "synagogue", "temple", "school", "university", "college",
   "mall", "shopping center", "parking garage", "parking lot", "rest area",
   "public restroom", "bathroom", "police station", "fire station"]

/-- The street-address indicator substrings checked by `_is_generic_place_name`. -/
def address_indicators : List String :=
  ["street", "st", "avenue", "ave", "road", "rd", "blvd", "drive", "dr"]

/-- Test that `sub` occurs as a contiguous block starting at some position of `s`. -/
def containsSubAux (sub : List Char) : List Char → Bool
  | [] => sub.isEmpty
  | c :: cs => sub.isPrefixOf (c :: cs) || containsSubAux sub cs

/-- Python `sub in s` on strings: substring containment. -/
def containsSub (sub s : String) : Bool := containsSubAux sub.toList s.toList

/-- Embedding of `NavigationService._is_generic_place_name`: some curated term equals or is
contained in the lowercased destination, and the destination carries neither an
address-indicator substring nor any digit. -/
def is_generic_place_name (destination : String) : Bool :=
  let dl := pyStrip (pyLower destination)
  generic_terms.any (fun term =>
    (term == dl || containsSub term dl) &&
      (let has_address := address_indicators.any (fun ind => containsSub ind dl)
       let has_numbers := destination.toList.any (fun c => c.isDigit)
       !has_address && !has_numbers))

/-! ### Data model of the session store

Coordinates and distances are embedded as exact rationals: the session logic
only ever compares the distance returned by the geodesy helper against
rational thresholds and multiplies it by `3.28084`. -/

/-- GPS coordinates (`LocationCoordinates` in `app/schemas.py`). -/
structure QCoord where
  lat : ℚ
  lng : ℚ
deriving DecidableEq

/-- One navigation instruction (`NavigationStep` in `app/schemas.py`). -/
structure NavStep where
  instruction : String
  distance : String
  duration : String
  distance_meters : ℤ
  duration_seconds : ℤ
  start_location : QCoord
  end_location : QCoord
deriving DecidableEq

/-- The per-session record stored in `self.active_navigations` by
`start_navigation` (lines 349–357 of the source). -/
structure NavState where
  destination : String
  steps : List NavStep
  current_step_index : ℕ
  total_steps : ℕ
  status : String
  last_announcement : Option String
  last_announced_distance : Option ℚ
deriving DecidableEq

/-- The session store `self.active_navigations : Dict[str, dict]`. -/
def Store : Type := String → Option NavState

/-- Writing `navs[sid] = nav` into the dictionary. -/
def Store.set (navs : Store) (sid : String) (nav : NavState) : Store :=
  fun s => if s = sid then some nav else navs s

/-- Python `navs.pop(sid, None)`: remove the key if present. -/
def Store.pop (navs : Store) (sid : String) : Store :=
  fun s => if s = sid then none else navs s

/-- The dictionary with no active navigation session. -/
def Store.empty : Store := fun _ => none

/-- Real-time update payload (`NavigationUpdate` in `app/schemas.py`). -/
structure NavigationUpdate where
  status : String
  current_step : ℕ
  total_steps : ℕ
  instruction : String
  distance_to_next : ℚ
  should_announce : Bool
  announcement : Option String
deriving DecidableEq

/-- Result of `update_location`: either the bare error dictionary
`{"status": "error", "message": ...}` or a `NavigationUpdate.dict()`. -/
inductive UpdateResult where
  | err (message : String)
  | upd (u : NavigationUpdate)
deriving DecidableEq

/-- Route payload (`DirectionsResponse` in `app/schemas.py`). -/
structure DirectionsResponse where
  status : String
  destination : String
  origin : QCoord
  total_distance : String
  total_duration : String
  total_distance_meters : ℤ
  total_duration_seconds : ℤ
  steps : List NavStep
  message : String
deriving DecidableEq

/-- Python `int(q)` on a float: truncation toward zero. -/
def pyInt (q : ℚ) : ℤ := if q < 0 then ⌈q⌉ else ⌊q⌋

/-- Announcement text `f"In {int(distance_feet)} feet, {instruction}"`. -/
def feetPhrase (distance_feet : ℚ) (instruction : String) : String :=
  let ft := pyInt distance_feet
  s!"In {ft} feet, {instruction}"

/-- Announcement text `f"In 100 meters, {instruction}"`. -/
def metersPhrase (instruction : String) : String :=
  s!"In 100 meters, {instruction}"

/-- The proximity-announcement tier block of `update_location`
(lines 445–471): from the stored `last_announcement` and the distance `d` to
the current step end, produce the new `last_announcement`, the
`should_announce` flag and the announcement text.  This is exactly the
`if/elif` chain of the source; the final component leaves the stored value
unchanged when no branch fires. -/
def announce_tiers (t : Option String) (d : ℚ) (instruction : String) :
    Option String × Bool × Option String :=
  let distance_feet := d * (328084 / 100000 : ℚ)
  if 100 < d ∧ t ≠ some "far" then
    (some "far", false, none)
  else if 90 ≤ d ∧ d ≤ 110 ∧ t ≠ some "100m" then
    (some "100m", true,
      some (if distance_feet < 528 then feetPhrase distance_feet instruction
            else metersPhrase instruction))
  else if 40 ≤ d ∧ d ≤ 60 ∧ t ≠ some "50m" then
    (some "50m", true, some (feetPhrase distance_feet instruction))
  else if 20 ≤ d ∧ d ≤ 30 ∧ t ≠ some "25m" then
    (some "25m", true, some (feetPhrase distance_feet instruction))
  else
    (t, false, none)

/-- The arrival payload returned by both arrival branches of
`update_location`. -/
def arrivedUpdate (n : ℕ) : NavigationUpdate :=
  { status := "arrived", current_step := n, total_steps := n,
    instruction := "You have arrived", distance_to_next := 0,
    should_announce := true,
    announcement := some "You have arrived at your destination" }

/-- Embedding of `NavigationService.update_location` (lines 364–483), with the geodesy
helper `self._haversine_distance` passed as the explicit parameter `dist` and
the mutation of `self.active_navigations` made explicit in the returned
store. -/
def update_location (dist : QCoord → QCoord → ℚ) (navs : Store) (session_id : String)
    (current : QCoord) : Store × UpdateResult :=
  match navs session_id with
  | none => (navs, .err "No active navigation for this session")
  | some nav =>
    let current_step_idx := nav.current_step_index
    let steps := nav.steps
    if h1 : steps.length ≤ current_step_idx then
      (navs.pop session_id, .upd (arrivedUpdate steps.length))
    else
      let current_step := steps.get ⟨current_step_idx, by omega⟩
      let distance_to_step_end := dist current current_step.end_location
      if distance_to_step_end < 20 then
        let nav1 : NavState :=
          { nav with current_step_index := current_step_idx + 1,
                     last_announcement := none, last_announced_distance := none }
        if h2 : steps.length ≤ current_step_idx + 1 then
          (navs.pop session_id, .upd (arrivedUpdate steps.length))
        else
          let next_step := steps.get ⟨current_step_idx + 1, by omega⟩
          (navs.set session_id nav1,
            .upd { status := "step_completed",
                   current_step := current_step_idx + 1 + 1,
                   total_steps := nav.total_steps,
                   instruction := next_step.instruction,
                   distance_to_next := (next_step.distance_meters : ℚ),
                   should_announce := true,
                   announcement := some next_step.instruction })
      else
        let r := announce_tiers nav.last_announcement distance_to_step_end
                   current_step.instruction
        (navs.set session_id { nav with last_announcement := r.1 },
          .upd { status := "navigating",
                 current_step := current_step_idx + 1,
                 total_steps := nav.total_steps,
                 instruction := current_step.instruction,
                 distance_to_next := distance_to_step_end,
                 should_announce := r.2.1,
                 announcement := r.2.2 })

/-- Embedding of `NavigationService.start_navigation` (lines 332–361), with the value
returned by `get_directions` passed in as `directions`: stores the fresh
session record and hands the directions back. -/
def start_navigation (navs : Store) (session_id : String)
    (directions : DirectionsResponse) : Store × DirectionsResponse :=
  (navs.set session_id
    { destination := directions.destination, steps := directions.steps,
      current_step_index := 0, total_steps := directions.steps.length,
      status := "active", last_announcement := none,
      last_announced_distance := none },
   directions)

/-- Fold a sequence of location updates for one session through the store. -/
def runUpdates (dist : QCoord → QCoord → ℚ) (sid : String) : Store → List QCoord → Store
  | navs, [] => navs
  | navs, c :: cs => runUpdates dist sid (update_location dist navs sid c).1 cs

/-- Observe `should_announce` of an update result (`false` on the error
dictionary, which carries no announcement). -/
def shouldAnnounceOf : UpdateResult → Bool
  | .err _ => false
  | .upd u => u.should_announce

/-- Observe the `status` field of an update result. -/
def statusOf : UpdateResult → String
  | .err _ => "error"
  | .upd u => u.status

/-- Observe the announcement text of an update result. -/
def announcementOf : UpdateResult → Option String
  | .err _ => none
  | .upd u => u.announcement

/-- Observe the stored `current_step_index` for a session id. -/
def idxAt (navs : Store) (sid : String) : Option ℕ :=
  (navs sid).map (fun nav => nav.current_step_index)

/-- Observe the stored `last_announcement` for a session id. -/
def lastAnnAt (navs : Store) (sid : String) : Option (Option String) :=
  (navs sid).map (fun nav => nav.last_announcement)

/-! ### Route Provider Adapter: `get_directions`

The two Google Maps entry points used by `get_directions` are oracles:
`findNearest` stands for `self._find_nearest_place(keyword, origin, radius)`
(lines 584–637; it wraps the places-nearby and text-search calls and its
catch-all exception handler, returning `None` when nothing was found), and
`dirProvider` stands for `self.gmaps.directions(origin, dest, mode="walking")`
(an `Except.error` models a raised `googlemaps.exceptions.ApiError`).  The
origin coordinate is fixed by partial application.  Every oracle invocation
is recorded in the returned trace. -/

/-- Characters of the rest of the list up to (exclusive) and after the first
`>` character, or `none` when there is no `>`. -/
def splitAtGt : List Char → Option (List Char × List Char)
  | [] => none
  | c :: cs =>
    if c = '>' then some ([], cs)
    else (splitAtGt cs).map (fun p => (c :: p.1, p.2))

/-- Left-to-right pass of `re.sub(r'<[^>]+>', '', s)`: drop every
non-empty angle-bracketed block; `fuel = s.length` keeps recursion
structural and never runs out. -/
def stripTagsAux : Nat → List Char → List Char
  | 0, s => s
  | _ + 1, [] => []
  | fuel + 1, c :: cs =>
    if c = '<' then
      match splitAtGt cs with
      | some (inner, rest) =>
        if inner.isEmpty then c :: stripTagsAux fuel cs
        else stripTagsAux fuel rest
      | none => c :: stripTagsAux fuel cs
    else c :: stripTagsAux fuel cs

/-- Python `s.replace(pat, repl)` (all occurrences, left to right); the fuel
argument again only makes the recursion structural. -/
def replaceSubAux (pat repl : List Char) : Nat → List Char → List Char
  | 0, s => s
  | _ + 1, [] => []
  | fuel + 1, c :: cs =>
    if pat.isPrefixOf (c :: cs) && !pat.isEmpty then
      repl ++ replaceSubAux pat repl fuel (List.drop (pat.length - 1) cs)
    else c :: replaceSubAux pat repl fuel cs

/-- Python `s.replace(pat, repl)` on strings. -/
def pyReplace (s pat repl : String) : String :=
  ⟨replaceSubAux pat.toList repl.toList s.toList.length s.toList⟩

/-- Embedding of `NavigationService._clean_html_instructions` (lines 640–655): strip
HTML-like tags, decode the two handled entities, strip whitespace. -/
def clean_html_instructions (html_text : String) : String :=
  let text : String := ⟨stripTagsAux html_text.toList.length html_text.toList⟩
  let text := pyReplace text "&nbsp;" " "
  let text := pyReplace text "&amp;" "&"
  pyStrip text

/-- Raw step of a Google Maps directions leg, as read by the parse loop. -/
structure GStep where
  html_instructions : String
  distance_text : String
  distance_value : ℤ
  duration_text : String
  duration_value : ℤ
  start_location : QCoord
  end_location : QCoord
deriving DecidableEq

/-- Raw leg of a Google Maps route. -/
structure GLeg where
  steps : List GStep
  end_address : String
  distance_text : String
  distance_value : ℤ
  duration_text : String
  duration_value : ℤ
deriving DecidableEq

/-- Raw Google Maps route (`directions[i]`). -/
structure GRoute where
  legs : List GLeg
deriving DecidableEq

/-- Resolved place returned by `_find_nearest_place`. -/
structure Place where
  name : String
  address : String
  location : QCoord
deriving DecidableEq

/-- One provider invocation issued by `get_directions`. -/
inductive GCall where
  | nearby (keyword : String) (radius : ℕ)
  | directions (destination : String)
deriving DecidableEq

/-- Conversion of one raw provider step into a `NavigationStep` (the body of
the parse loop at lines 115–131). -/
def parseStep (step : GStep) : NavStep :=
  { instruction := clean_html_instructions step.html_instructions,
    distance := step.distance_text, duration := step.duration_text,
    distance_meters := step.distance_value,
    duration_seconds := step.duration_value,
    start_location := step.start_location,
    end_location := step.end_location }

/-- Error message raised when both nearby searches come back empty. -/
def couldNotFindMsg (cleaned : String) : String :=
  s!"Could not find any \x27{cleaned}\x27 near your location. Try searching for a specific address or landmark instead."

/-- Error message raised when the provider returns zero routes. -/
def noRouteMsg (destination : String) : String :=
  s!"No walking route found to \x27{destination}\x27. Try being more specific."

/-- Success message of the directions response. -/
def foundRouteMsg (addr : String) (n : ℕ) : String :=
  s!"Found route to {addr}. {n} steps total."

/-- Final phase of `get_directions` (lines 96–146): issue the directions
call for the resolved destination and parse the first leg of the first
route.  An empty `legs` list would raise an uncaught `IndexError` in the
source; it is modelled as that error value. -/
def directionsPhase (dirProvider : String → Except String (List GRoute))
    (origin : QCoord) (destination final_destination : String)
    (trace : List GCall) : Except String DirectionsResponse × List GCall :=
  match dirProvider final_destination with
  | .error e => (.error s!"Google Maps API error: {e}",
                 trace ++ [.directions final_destination])
  | .ok directions =>
    match directions with
    | [] => (.error (noRouteMsg destination), trace ++ [.directions final_destination])
    | route :: _ =>
      match route.legs with
      | [] => (.error "IndexError: list index out of range",
               trace ++ [.directions final_destination])
      | leg :: _ =>
        let steps := leg.steps.map parseStep
        (.ok { status := "success", destination := leg.end_address,
               origin := origin, total_distance := leg.distance_text,
               total_duration := leg.duration_text,
               total_distance_meters := leg.distance_value,
               total_duration_seconds := leg.duration_value,
               steps := steps,
               message := foundRouteMsg leg.end_address steps.length },
         trace ++ [.directions final_destination])

/-- Embedding of `NavigationService.get_directions` (lines 51–146): clean the
destination, resolve generic place names through the nearby search with the
5 km → 10 km radius escalation, then call the directions provider. -/
def get_directions (hasGmaps : Bool)
    (findNearest : String → ℕ → Option Place)
    (dirProvider : String → Except String (List GRoute))
    (origin : QCoord) (destination : String) :
    Except String DirectionsResponse × List GCall :=
  if !hasGmaps then
    (.error "Google Maps API key not configured. Please set GOOGLE_MAPS_API_KEY in .env file",
     [])
  else
    let cleaned_destination := clean_destination destination
    if is_generic_place_name cleaned_destination then
      match findNearest cleaned_destination 5000 with
      | some nearest_place =>
        let nm := nearest_place.name
        let ad := nearest_place.address
        directionsPhase dirProvider origin destination s!"{nm}, {ad}"
          [.nearby cleaned_destination 5000]
      | none =>
        match findNearest cleaned_destination 10000 with
        | some nearest_place =>
          let nm := nearest_place.name
          let ad := nearest_place.address
          directionsPhase dirProvider origin destination s!"{nm}, {ad}"
            [.nearby cleaned_destination 5000, .nearby cleaned_destination 10000]
        | none =>
          (.error (couldNotFindMsg cleaned_destination),
           [.nearby cleaned_destination 5000, .nearby cleaned_destination 10000])
    else
      directionsPhase dirProvider origin destination cleaned_destination []

/-! ### Transit Provider Adapter

The TransitApp HTTP endpoints are oracles: an argument of type
`Option (HttpResp β)` stands for the outcome of `requests.get` (`none`
models a raised transport exception caught by the `try/except`, `some r`
a received response with `r.status_code` and parsed JSON body `r.body`). -/

/-- Received HTTP response with parsed JSON body. -/
structure HttpResp (β : Type) where
  status_code : ℕ
  body : β
deriving DecidableEq

/-- Transit stop as returned by the `nearby_stops` endpoint
(`route_type` is absent on some stops: Python `s.get("route_type")`). -/
structure TStop where
  stop_name : String
  route_type : Option ℤ
  stop_lat : ℚ
  stop_lon : ℚ
  distance : ℚ
deriving DecidableEq

/-- Body of a `nearby_stops` response. -/
structure NearbyStopsBody where
  stops : List TStop
deriving DecidableEq

/-- One leg of a planned transit trip (only the fields the service reads). -/
structure TransitLegR where
  leg_mode : String
  duration : ℤ
  distance : ℤ
deriving DecidableEq

/-- One itinerary of a `plan` response. -/
structure TripResult where
  duration : ℤ
  start_time : ℤ
  end_time : ℤ
  legs : List TransitLegR
deriving DecidableEq

/-- Body of a `plan` response. -/
structure TransitPlanBody where
  results : List TripResult
deriving DecidableEq

/-- Embedding of `NavigationService._transit_get_nearest_stop` (lines 700–736): return
the first nearby stop, preferring stops of the requested vehicle class but
falling back to the unfiltered list when no stop matches. -/
def transit_get_nearest_stop (hasKey : Bool)
    (resp : Option (HttpResp NearbyStopsBody)) (transport_mode : String) :
    Option TStop :=
  if !hasKey then none
  else
    match resp with
    | none => none
    | some r =>
      if r.status_code ≠ 200 then none
      else
        let stops := r.body.stops
        if stops.isEmpty then none
        else
          let stops :=
            if transport_mode = "bus" then
              let filtered := stops.filter (fun s => s.route_type == some 3)
              if !filtered.isEmpty then filtered else stops
            else if transport_mode = "train" then
              let filtered := stops.filter (fun s =>
                s.route_type == some 0 || s.route_type == some 1 || s.route_type == some 2)
              if !filtered.isEmpty then filtered else stops
            else stops
          stops.head?

/-- Embedding of `NavigationService._transit_plan_trip` (lines 791–831): raises when the
key is missing; otherwise returns `None` on a transport exception, `None`
whenever `resp.status_code != 0`, and the parsed body only otherwise. -/
def transit_plan_trip (hasKey : Bool)
    (resp : Option (HttpResp TransitPlanBody)) :
    Except String (Option TransitPlanBody) :=
  if !hasKey then
    .error "TRANSIT_API_KEY is missing — please set it in the .env file."
  else
    match resp with
    | none => .ok none
    | some r =>
      if r.status_code ≠ 0 then .ok none
      else .ok (some r.body)

/-- The guard of `get_transit_routes` right after planning the trip
(lines 222–224 of the source): `if not trip_data or not
trip_data.get("results"): raise`. -/
def get_transit_routes_planCheck (trip_data : Option TransitPlanBody) :
    Except String TransitPlanBody :=
  match trip_data with
  | none => .error "No transit routes found for this destination."
  | some td =>
    if td.results.isEmpty then .error "No transit routes found for this destination."
    else .ok td

/-! ### Geodesy: the haversine distance over exact real arithmetic -/

/-- Python `math.radians`. -/
noncomputable def radians (deg : ℝ) : ℝ := deg * Real.pi / 180

/-- Python `math.atan2(y, x)` over the reals (no signed zeros). -/
noncomputable def atan2 (y x : ℝ) : ℝ :=
  if 0 < x then Real.arctan (y / x)
  else if x < 0 ∧ 0 ≤ y then Real.arctan (y / x) + Real.pi
  else if x < 0 ∧ y < 0 then Real.arctan (y / x) - Real.pi
  else if x = 0 ∧ 0 < y then Real.pi / 2
  else if x = 0 ∧ y < 0 then -(Real.pi / 2)
  else 0

/-- Embedding of `NavigationService._haversine_distance` (lines 498–520), with Earth
radius 6 371 000 m, embedded over exact real arithmetic. -/
noncomputable def haversine_distance (lat1 lng1 lat2 lng2 : ℝ) : ℝ :=
  let R : ℝ := 6371000
  let lat1_rad := radians lat1
  let lng1_rad := radians lng1
  let lat2_rad := radians lat2
  let lng2_rad := radians lng2
  let dlat := lat2_rad - lat1_rad
  let dlng := lng2_rad - lng1_rad
  let a := Real.sin (dlat / 2) ^ 2 +
    Real.cos lat1_rad * Real.cos lat2_rad * Real.sin (dlng / 2) ^ 2
  let c := 2 * atan2 (Real.sqrt a) (Real.sqrt (1 - a))
  R * c

/-! ### Concrete fixtures used by witnesses and counterexamples

The session-store theorems hold for every geodesy function `dist`; concrete
runs instantiate `dist` with `dconc`, which reads the distance directly off
the latitude of the submitted coordinate (haversine values at rational
coordinates are transcendental, so no rational coordinate pair could be
evaluated exactly). -/

/-- Distance function for concrete runs: the submitted latitude is the
distance to every step end. -/
def dconc : QCoord → QCoord → ℚ := fun a _ => a.lat

/-- A one-step route step ending at the origin. -/
def step0 : NavStep :=
  { instruction := "Turn left", distance := "0.2 km", duration := "3 mins",
    distance_meters := 200, duration_seconds := 180,
    start_location := ⟨0, 0⟩, end_location := ⟨0, 0⟩ }

/-- A second route step. -/
def step1 : NavStep :=
  { instruction := "Continue onto Liacouras Walk", distance := "0.1 km",
    duration := "2 mins", distance_meters := 150, duration_seconds := 120,
    start_location := ⟨0, 0⟩, end_location := ⟨1, 1⟩ }

/-- Fresh one-step session record. -/
def nav0 : NavState :=
  { destination := "Test Destination", steps := [step0], current_step_index := 0,
    total_steps := 1, status := "active", last_announcement := none,
    last_announced_distance := none }

/-- One-step session record whose 50 m tier has already fired. -/
def nav50 : NavState := { nav0 with last_announcement := some "50m" }

/-- Store holding the fresh session under id `"s1"`. -/
def store0 : Store := fun s => if s = "s1" then some nav0 else none

/-- Store holding the 50 m-fired session under id `"s1"`. -/
def store50 : Store := fun s => if s = "s1" then some nav50 else none

/-- One-step session record whose recorded tier is `Far`. -/
def navFar : NavState := { nav0 with last_announcement := some "far" }

/-- Store holding the `Far`-tier session under id `"s1"`. -/
def storeFar : Store := fun s => if s = "s1" then some navFar else none

/-- Store after one update of the fresh session at distance 95. -/
def cstore1 : Store := (update_location dconc store0 "s1" ⟨95, 0⟩).1

/-- Store after a further update at distance 50. -/
def cstore2 : Store := (update_location dconc cstore1 "s1" ⟨50, 0⟩).1

/-- Two-step directions payload for session-creation runs. -/
def dirs0 : DirectionsResponse :=
  { status := "success", destination := "CVS Pharmacy", origin := ⟨0, 0⟩,
    total_distance := "0.3 km", total_duration := "5 mins",
    total_distance_meters := 350, total_duration_seconds := 300,
    steps := [step0, step1], message := "Found route" }

/-- A transit itinerary, as would be returned by the plan endpoint. -/
def trip0 : TripResult :=
  { duration := 1800, start_time := 1700000000, end_time := 1700001800,
    legs := [{ leg_mode := "walk", duration := 300, distance := 250 },
             { leg_mode := "transit", duration := 1500, distance := 0 }] }

/-- A successful plan response carrying one itinerary. -/
def planResp200 : HttpResp TransitPlanBody :=
  { status_code := 200, body := { results := [trip0] } }

/-- A rail stop (route_type 1). -/
def tstopA : TStop :=
  { stop_name := "Cecil B Moore Station", route_type := some 1,
    stop_lat := 399812 / 10000, stop_lon := -751556 / 10000, distance := 120 }

/-- A stop without a route_type field. -/
def tstopB : TStop :=
  { stop_name := "Broad St and Montgomery Ave", route_type := none,
    stop_lat := 399800 / 10000, stop_lon := -751550 / 10000, distance := 230 }

/-- A successful nearby-stops response with no bus stop in it. -/
def stopsResp200 : HttpResp NearbyStopsBody :=
  { status_code := 200, body := { stops := [tstopA, tstopB] } }

/-! ### Branch characterizations of `update_location` -/

theorem update_location_absent (dist : QCoord → QCoord → ℚ) (navs : Store)
    (sid : String) (c : QCoord) (h : navs sid = none) :
    update_location dist navs sid c =
      (navs, .err "No active navigation for this session") := by
  simp only [update_location, h]

theorem update_location_stale (dist : QCoord → QCoord → ℚ) (navs : Store)
    (sid : String) (c : QCoord) (nav : NavState) (h : navs sid = some nav)
    (hge : nav.steps.length ≤ nav.current_step_index) :
    update_location dist navs sid c =
      (navs.pop sid, .upd (arrivedUpdate nav.steps.length)) := by
  simp only [update_location, h]
  rw [dif_pos hge]

theorem update_location_complete_last (dist : QCoord → QCoord → ℚ) (navs : Store)
    (sid : String) (c : QCoord) (nav : NavState) (h : navs sid = some nav)
    (hlt : nav.current_step_index < nav.steps.length)
    (hd : dist c ((nav.steps.get ⟨nav.current_step_index, hlt⟩).end_location) < 20)
    (hlast : nav.steps.length ≤ nav.current_step_index + 1) :
    update_location dist navs sid c =
      (navs.pop sid, .upd (arrivedUpdate nav.steps.length)) := by
  simp only [update_location, h]
  rw [dif_neg (by omega), if_pos hd, dif_pos hlast]

theorem update_location_complete_mid (dist : QCoord → QCoord → ℚ) (navs : Store)
    (sid : String) (c : QCoord) (nav : NavState) (h : navs sid = some nav)
    (hlt : nav.current_step_index < nav.steps.length)
    (hd : dist c ((nav.steps.get ⟨nav.current_step_index, hlt⟩).end_location) < 20)
    (hmid : nav.current_step_index + 1 < nav.steps.length) :
    update_location dist navs sid c =
      (navs.set sid { nav with current_step_index := nav.current_step_index + 1,
                               last_announcement := none,
                               last_announced_distance := none },
       .upd { status := "step_completed",
              current_step := nav.current_step_index + 1 + 1,
              total_steps := nav.total_steps,
              instruction := (nav.steps.get ⟨nav.current_step_index + 1, hmid⟩).instruction,
              distance_to_next :=
                ((nav.steps.get ⟨nav.current_step_index + 1, hmid⟩).distance_meters : ℚ),
              should_announce := true,
              announcement :=
                some (nav.steps.get ⟨nav.current_step_index + 1, hmid⟩).instruction }) := by
  simp only [update_location, h]
  rw [dif_neg (by omega), if_pos hd, dif_neg (by omega)]

theorem update_location_navigating (dist : QCoord → QCoord → ℚ) (navs : Store)
    (sid : String) (c : QCoord) (nav : NavState) (h : navs sid = some nav)
    (hlt : nav.current_step_index < nav.steps.length)
    (hd : ¬ dist c ((nav.steps.get ⟨nav.current_step_index, hlt⟩).end_location) < 20) :
    update_location dist navs sid c =
      (navs.set sid
        { nav with last_announcement :=
            (announce_tiers nav.last_announcement
              (dist c ((nav.steps.get ⟨nav.current_step_index, hlt⟩).end_location))
              (nav.steps.get ⟨nav.current_step_index, hlt⟩).instruction).1 },
       .upd { status := "navigating",
              current_step := nav.current_step_index + 1,
              total_steps := nav.total_steps,
              instruction := (nav.steps.get ⟨nav.current_step_index, hlt⟩).instruction,
              distance_to_next :=
                dist c ((nav.steps.get ⟨nav.current_step_index, hlt⟩).end_location),
              should_announce :=
                (announce_tiers nav.last_announcement
                  (dist c ((nav.steps.get ⟨nav.current_step_index, hlt⟩).end_location))
                  (nav.steps.get ⟨nav.current_step_index, hlt⟩).instruction).2.1,
              announcement :=
                (announce_tiers nav.last_announcement
                  (dist c ((nav.steps.get ⟨nav.current_step_index, hlt⟩).end_location))
                  (nav.steps.get ⟨nav.current_step_index, hlt⟩).instruction).2.2 }) := by
  simp only [update_location, h]
  rw [dif_neg (by omega), if_neg hd]

/-! ### Behaviour of the announcement tier block -/

theorem announce_tiers_far (t : Option String) (d : ℚ) (instr : String)
    (h100 : 100 < d) (ht : t ≠ some "far") :
    announce_tiers t d instr = (some "far", false, none) := by
  unfold announce_tiers
  rw [if_pos ⟨h100, ht⟩]

theorem announce_tiers_fire100 (t : Option String) (d : ℚ) (instr : String)
    (h90 : 90 ≤ d) (h110 : d ≤ 110) (ht : t ≠ some "100m")
    (hok : d ≤ 100 ∨ t = some "far") :
    announce_tiers t d instr =
      (some "100m", true,
       some (if d * (328084 / 100000 : ℚ) < 528
             then feetPhrase (d * (328084 / 100000 : ℚ)) instr
             else metersPhrase instr)) := by
  unfold announce_tiers
  have hA : ¬ (100 < d ∧ t ≠ some "far") := by
    rcases hok with hle | heq
    · rintro ⟨hgt, -⟩; linarith
    · rintro ⟨-, hne⟩; exact hne heq
  rw [if_neg hA, if_pos ⟨h90, h110, ht⟩]

theorem announce_tiers_fire50 (t : Option String) (d : ℚ) (instr : String)
    (h40 : 40 ≤ d) (h60 : d ≤ 60) (ht : t ≠ some "50m") :
    announce_tiers t d instr =
      (some "50m", true, some (feetPhrase (d * (328084 / 100000 : ℚ)) instr)) := by
  unfold announce_tiers
  rw [if_neg (by rintro ⟨hgt, -⟩; linarith),
      if_neg (by rintro ⟨h90, -, -⟩; linarith),
      if_pos ⟨h40, h60, ht⟩]

theorem announce_tiers_fire25 (t : Option String) (d : ℚ) (instr : String)
    (h20 : 20 ≤ d) (h30 : d ≤ 30) (ht : t ≠ some "25m") :
    announce_tiers t d instr =
      (some "25m", true, some (feetPhrase (d * (328084 / 100000 : ℚ)) instr)) := by
  unfold announce_tiers
  rw [if_neg (by rintro ⟨hgt, -⟩; linarith),
      if_neg (by rintro ⟨h90, -, -⟩; linarith),
      if_neg (by rintro ⟨h40, -, -⟩; linarith),
      if_pos ⟨h20, h30, ht⟩]

theorem announce_tiers_100_nofire (d : ℚ) (instr : String)
    (h90 : 90 ≤ d) (h110 : d ≤ 110) :
    (announce_tiers (some "100m") d instr).2.1 = false := by
  unfold announce_tiers
  split_ifs with hA hB hC hD
  · rfl
  · exact absurd rfl hB.2.2
  · rcases hC with ⟨-, h60, -⟩; linarith
  · rcases hD with ⟨-, h30, -⟩; linarith
  · rfl

theorem announce_tiers_100_fixed (d : ℚ) (instr : String)
    (h90 : 90 ≤ d) (h100 : d ≤ 100) :
    announce_tiers (some "100m") d instr = (some "100m", false, none) := by
  unfold announce_tiers
  rw [if_neg (by rintro ⟨hgt, -⟩; linarith),
      if_neg (by rintro ⟨-, -, hne⟩; exact hne rfl),
      if_neg (by rintro ⟨-, h60, -⟩; linarith),
      if_neg (by rintro ⟨-, h30, -⟩; linarith)]

theorem announce_tiers_50_fixed (d : ℚ) (instr : String)
    (h40 : 40 ≤ d) (h60 : d ≤ 60) :
    announce_tiers (some "50m") d instr = (some "50m", false, none) := by
  unfold announce_tiers
  rw [if_neg (by rintro ⟨hgt, -⟩; linarith),
      if_neg (by rintro ⟨h90, -, -⟩; linarith),
      if_neg (by rintro ⟨-, -, hne⟩; exact hne rfl),
      if_neg (by rintro ⟨-, h30, -⟩; linarith)]

theorem announce_tiers_25_fixed (d : ℚ) (instr : String)
    (h20 : 20 ≤ d) (h30 : d ≤ 30) :
    announce_tiers (some "25m") d instr = (some "25m", false, none) := by
  unfold announce_tiers
  rw [if_neg (by rintro ⟨hgt, -⟩; linarith),
      if_neg (by rintro ⟨h90, -, -⟩; linarith),
      if_neg (by rintro ⟨h40, -, -⟩; linarith),
      if_neg (by rintro ⟨-, -, hne⟩; exact hne rfl)]

theorem announce_tiers_far_beyond (d : ℚ) (instr : String) (h110 : 110 < d) :
    announce_tiers (some "far") d instr = (some "far", false, none) := by
  unfold announce_tiers
  rw [if_neg (by rintro ⟨-, hne⟩; exact hne rfl),
      if_neg (by rintro ⟨-, hle, -⟩; linarith),
      if_neg (by rintro ⟨-, hle, -⟩; linarith),
      if_neg (by rintro ⟨-, hle, -⟩; linarith)]

theorem announce_tiers_fire_char (t : Option String) (d : ℚ) (instr : String)
    (hf : (announce_tiers t d instr).2.1 = true) :
    ((announce_tiers t d instr).1 = some "100m" ∧ 90 ≤ d ∧ d ≤ 110) ∨
    ((announce_tiers t d instr).1 = some "50m" ∧ 40 ≤ d ∧ d ≤ 60) ∨
    ((announce_tiers t d instr).1 = some "25m" ∧ 20 ≤ d ∧ d ≤ 30) := by
  by_cases hA : 100 < d ∧ t ≠ some "far"
  · rw [announce_tiers_far t d instr hA.1 hA.2] at hf
    exact absurd hf (by simp)
  by_cases hB : 90 ≤ d ∧ d ≤ 110 ∧ t ≠ some "100m"
  · refine Or.inl ⟨?_, hB.1, hB.2.1⟩
    unfold announce_tiers
    rw [if_neg hA, if_pos hB]
  by_cases hC : 40 ≤ d ∧ d ≤ 60 ∧ t ≠ some "50m"
  · refine Or.inr (Or.inl ⟨?_, hC.1, hC.2.1⟩)
    unfold announce_tiers
    rw [if_neg hA, if_neg hB, if_pos hC]
  by_cases hD : 20 ≤ d ∧ d ≤ 30 ∧ t ≠ some "25m"
  · refine Or.inr (Or.inr ⟨?_, hD.1, hD.2.1⟩)
    unfold announce_tiers
    rw [if_neg hA, if_neg hB, if_neg hC, if_pos hD]
  · unfold announce_tiers at hf
    rw [if_neg hA, if_neg hB, if_neg hC, if_neg hD] at hf
    exact absurd hf (by simp)

/-! ### Evolution of the store under location updates -/

theorem Store.pop_self (navs : Store) (sid : String) : navs.pop sid sid = none := by
  simp [Store.pop]

theorem Store.set_self (navs : Store) (sid : String) (nav : NavState) :
    navs.set sid nav sid = some nav := by
  simp [Store.set]

/-- Whatever one update does to a present session, the stored record keeps
the same step list, never decreases `current_step_index`, and keeps it
strictly below the number of steps — or the session is removed. -/
theorem update_location_present_cases (dist : QCoord → QCoord → ℚ) (navs : Store)
    (sid : String) (c : QCoord) (nav : NavState) (h : navs sid = some nav) :
    (update_location dist navs sid c).1 sid = none ∨
    ∃ nav', (update_location dist navs sid c).1 sid = some nav' ∧
      nav'.steps = nav.steps ∧
      nav.current_step_index ≤ nav'.current_step_index ∧
      nav'.current_step_index < nav.steps.length := by
  by_cases hge : nav.steps.length ≤ nav.current_step_index
  · left
    rw [update_location_stale dist navs sid c nav h hge]
    exact Store.pop_self navs sid
  · have hlt : nav.current_step_index < nav.steps.length := by omega
    by_cases hd : dist c ((nav.steps.get ⟨nav.current_step_index, hlt⟩).end_location) < 20
    · by_cases hlast : nav.steps.length ≤ nav.current_step_index + 1
      · left
        rw [update_location_complete_last dist navs sid c nav h hlt hd hlast]
        exact Store.pop_self navs sid
      · have hmid : nav.current_step_index + 1 < nav.steps.length := by omega
        right
        rw [update_location_complete_mid dist navs sid c nav h hlt hd hmid]
        exact ⟨_, Store.set_self _ _ _, rfl, Nat.le_succ _, hmid⟩
    · right
      rw [update_location_navigating dist navs sid c nav h hlt hd]
      exact ⟨_, Store.set_self _ _ _, rfl, le_refl _, hlt⟩

/-- An absent session stays absent across any update sequence, and every
update against it returns the no-active-session error. -/
theorem runUpdates_absent (dist : QCoord → QCoord → ℚ) (sid : String)
    (cs : List QCoord) :
    ∀ navs : Store, navs sid = none → runUpdates dist sid navs cs sid = none := by
  induction cs with
  | nil => intro navs h; exact h
  | cons c cs ih =>
    intro navs h
    rw [runUpdates, update_location_absent dist navs sid c h]
    exact ih navs h

/-- Across any update sequence, a present session either disappears or
keeps its step list while its index moves monotonically within bounds. -/
theorem runUpdates_present (dist : QCoord → QCoord → ℚ) (sid : String)
    (cs : List QCoord) :
    ∀ (navs : Store) (nav : NavState), navs sid = some nav →
      nav.current_step_index ≤ nav.steps.length →
      runUpdates dist sid navs cs sid = none ∨
      ∃ nav', runUpdates dist sid navs cs sid = some nav' ∧
        nav'.steps = nav.steps ∧
        nav.current_step_index ≤ nav'.current_step_index ∧
        nav'.current_step_index ≤ nav.steps.length := by
  induction cs with
  | nil =>
    intro navs nav h hinv
    exact Or.inr ⟨nav, h, rfl, le_refl _, hinv⟩
  | cons c cs ih =>
    intro navs nav h hinv
    rcases update_location_present_cases dist navs sid c nav h with hnone |
      ⟨nav1, h1, hsteps, hle, hlt⟩
    · left
      rw [runUpdates]
      exact runUpdates_absent dist sid cs _ hnone
    · rcases ih _ _ h1 (by rw [hsteps]; omega) with hnone | ⟨nav2, h2, hs2, hle2, hb2⟩
      · left
        rw [runUpdates]
        exact hnone
      · right
        rw [runUpdates]
        refine ⟨nav2, h2, by rw [hs2, hsteps], le_trans hle hle2, ?_⟩
        rw [hsteps] at hb2
        exact hb2

/-- An update whose tier block is a no-op leaves the stored record intact
and does not announce. -/
theorem update_location_fixed (dist : QCoord → QCoord → ℚ) (navs : Store)
    (sid : String) (c : QCoord) (nav : NavState) (h : navs sid = some nav)
    (hlt : nav.current_step_index < nav.steps.length)
    (hd : ¬ dist c ((nav.steps.get ⟨nav.current_step_index, hlt⟩).end_location) < 20)
    (hfix : announce_tiers nav.last_announcement
        (dist c ((nav.steps.get ⟨nav.current_step_index, hlt⟩).end_location))
        (nav.steps.get ⟨nav.current_step_index, hlt⟩).instruction
      = (nav.last_announcement, false, none)) :
    (update_location dist navs sid c).1 sid = some nav ∧
    shouldAnnounceOf (update_location dist navs sid c).2 = false := by
  rw [update_location_navigating dist navs sid c nav h hlt hd]
  constructor
  · rw [hfix]
    exact Store.set_self navs sid nav
  · rw [shouldAnnounceOf, hfix]

/-- Replaying the same coordinate against a session in tier-fixed-point
state keeps the stored record unchanged. -/
theorem runUpdates_replicate_fixed (dist : QCoord → QCoord → ℚ) (sid : String)
    (c : QCoord) (nav : NavState)
    (hlt : nav.current_step_index < nav.steps.length)
    (hd : ¬ dist c ((nav.steps.get ⟨nav.current_step_index, hlt⟩).end_location) < 20)
    (hfix : announce_tiers nav.last_announcement
        (dist c ((nav.steps.get ⟨nav.current_step_index, hlt⟩).end_location))
        (nav.steps.get ⟨nav.current_step_index, hlt⟩).instruction
      = (nav.last_announcement, false, none)) :
    ∀ (k : ℕ) (navs : Store), navs sid = some nav →
      runUpdates dist sid navs (List.replicate k c) sid = some nav := by
  intro k
  induction k with
  | zero => intro navs h; exact h
  | succ k ih =>
    intro navs h
    rw [List.replicate_succ, runUpdates]
    exact ih _ (update_location_fixed dist navs sid c nav h hlt hd hfix).1

/-! ### Claim theorems -/

/-- C8: the embedded haversine distance (Earth radius 6,371,000 m, exact
real arithmetic) satisfies `distance(a, a) = 0` and
`distance(a, b) = distance(b, a)` for all coordinates. -/
theorem haversine_zero_and_symm (lat1 lng1 lat2 lng2 : ℝ) :
    haversine_distance lat1 lng1 lat1 lng1 = 0 ∧
    haversine_distance lat1 lng1 lat2 lng2 = haversine_distance lat2 lng2 lat1 lng1 := by
  constructor
  · simp only [haversine_distance, sub_self, zero_div, Real.sin_zero, ne_eq,
      OfNat.ofNat_ne_zero, not_false_eq_true, zero_pow, mul_zero, add_zero,
      Real.sqrt_zero, sub_zero, Real.sqrt_one]
    rw [show atan2 0 1 = 0 by
      unfold atan2
      rw [if_pos zero_lt_one, zero_div, Real.arctan_zero]]
    norm_num
  · have key : ∀ x y : ℝ, Real.sin ((x - y) / 2) ^ 2 = Real.sin ((y - x) / 2) ^ 2 := by
      intro x y
      rw [show (x - y) / 2 = -((y - x) / 2) by ring, Real.sin_neg, neg_sq]
    simp only [haversine_distance]
    rw [key (radians lat2) (radians lat1), key (radians lng2) (radians lng1),
        mul_comm (Real.cos (radians lat1)) (Real.cos (radians lat2))]

/-- C9: `_transit_plan_trip` returns `None` for every received response
whose status code differs from 0; since a successful provider response has
status 200, every received response yields `None`, and the guard in
`get_transit_routes` then raises the no-transit-routes failure even when
the response body carried itineraries. -/
theorem transit_plan_status_check_dead (r : HttpResp TransitPlanBody)
    (h : r.status_code ≠ 0) :
    transit_plan_trip true (some r) = .ok none ∧
    get_transit_routes_planCheck none =
      .error "No transit routes found for this destination." := by
  constructor
  · simp [transit_plan_trip, h]
  · rfl

/-- Witness for C9: a status-200 response carrying a non-empty itinerary
list is still turned into `None`, and the downstream guard raises. -/
theorem transit_plan_status_check_dead_witness :
    transit_plan_trip true (some planResp200) = .ok none ∧
    get_transit_routes_planCheck none =
      .error "No transit routes found for this destination." :=
  transit_plan_status_check_dead planResp200 (by decide)

/-- C10: on a successful nearby-stops response, when a bus or train filter
matches no stop the service falls back to the unfiltered list and returns
its first stop of any mode; it returns no stop exactly when the provider
returned zero stops. -/
theorem nearest_stop_filter_fallback (r : HttpResp NearbyStopsBody)
    (transport_mode : String) (h200 : r.status_code = 200) :
    (transport_mode = "bus" →
      r.body.stops.filter (fun s => s.route_type == some 3) = [] →
      transit_get_nearest_stop true (some r) transport_mode = r.body.stops.head?) ∧
    (transport_mode = "train" →
      r.body.stops.filter (fun s =>
        s.route_type == some 0 || s.route_type == some 1 || s.route_type == some 2) = [] →
      transit_get_nearest_stop true (some r) transport_mode = r.body.stops.head?) ∧
    (transit_get_nearest_stop true (some r) transport_mode = none ↔
      r.body.stops = []) := by
  have hne : ¬ (r.status_code ≠ 200) := fun hx => hx h200
  refine ⟨?_, ?_, ?_⟩
  · intro hmode hfilter
    simp only [transit_get_nearest_stop, Bool.not_true, Bool.false_eq_true,
      if_false, if_neg hne, hmode, if_pos rfl, hfilter, List.isEmpty_nil,
      Bool.not_false, Bool.not_true]
    rcases hstops : r.body.stops with _ | ⟨s0, rest⟩
    · simp
    · simp
  · intro hmode hfilter
    have hbus : transport_mode ≠ "bus" := by rw [hmode]; decide
    simp only [transit_get_nearest_stop, Bool.not_true, Bool.false_eq_true,
      if_false, if_neg hne, hmode, if_neg (by decide : ¬ ("train" : String) = "bus"),
      if_pos rfl, hfilter, List.isEmpty_nil, Bool.not_false, Bool.not_true]
    rcases hstops : r.body.stops with _ | ⟨s0, rest⟩
    · simp
    · simp
  · simp only [transit_get_nearest_stop, Bool.not_true, Bool.false_eq_true,
      if_false, if_neg hne]
    rcases hstops : r.body.stops with _ | ⟨s0, rest⟩
    · simp
    · constructor
      · intro hres
        exfalso
        revert hres
        simp only [List.isEmpty_cons, Bool.false_eq_true, if_false]
        split_ifs with hm1 hf hm2 hf2 <;> intro hres <;>
          rw [List.head?_eq_none_iff] at hres
        · rw [hres] at hf; simp at hf
        · simp at hres
        · rw [hres] at hf2; simp at hf2
        · simp at hres
        · simp at hres
      · intro hres
        exact absurd hres (by simp [hstops])

/-- Witness for C10: a successful response whose stops are a rail station
and an untyped stop, filtered for buses, falls back to the first stop. -/
theorem nearest_stop_filter_fallback_witness :
    transit_get_nearest_stop true (some stopsResp200) "bus" = some tstopA :=
  (nearest_stop_filter_fallback stopsResp200 "bus" rfl).1 rfl (by decide)

/-- C6: for a generic destination, when the 5 km nearby search is empty
exactly one retry at 10 km is attempted; when that is also empty,
resolution fails with the destination-not-found error and the trace shows
the two nearby searches and no directions call. -/
theorem get_directions_radius_escalation
    (findNearest : String → ℕ → Option Place)
    (dirProvider : String → Except String (List GRoute))
    (origin : QCoord) (destination : String)
    (hgen : is_generic_place_name (clean_destination destination) = true)
    (h5 : findNearest (clean_destination destination) 5000 = none)
    (h10 : findNearest (clean_destination destination) 10000 = none) :
    get_directions true findNearest dirProvider origin destination =
      (.error (couldNotFindMsg (clean_destination destination)),
       [.nearby (clean_destination destination) 5000,
        .nearby (clean_destination destination) 10000]) := by
  simp only [get_directions, Bool.not_true, Bool.false_eq_true, if_false, hgen,
    if_pos rfl, h5, h10]
  simp

/-- Witness for C6: the generic destination `"cvs"` with providers that
find nothing produces the error and the 5 km / 10 km call trace. -/
theorem get_directions_radius_escalation_witness :
    get_directions true (fun _ _ => none) (fun _ => .ok []) ⟨0, 0⟩ "cvs" =
      (.error (couldNotFindMsg (clean_destination "cvs")),
       [.nearby (clean_destination "cvs") 5000,
        .nearby (clean_destination "cvs") 10000]) :=
  get_directions_radius_escalation (fun _ _ => none) (fun _ => .ok []) ⟨0, 0⟩ "cvs"
    (by decide) rfl rfl

/-- C2 (refuted): `"the nearest Starbucks!"` does normalize to
`"starbucks"`, but `_is_generic_place_name` classifies it as NOT generic,
because the street-address check uses substring matching and the address
token `"st"` occurs inside `"starbucks"`; `get_directions` therefore calls
the directions provider directly with no nearby search at all. -/
theorem starbucks_not_classified_generic :
    clean_destination "the nearest Starbucks!" = "starbucks" ∧
    containsSub "st" "starbucks" = true ∧
    is_generic_place_name "starbucks" = false ∧
    ∀ (findNearest : String → ℕ → Option Place)
      (dirProvider : String → Except String (List GRoute)) (origin : QCoord),
      (get_directions true findNearest dirProvider origin
        "the nearest Starbucks!").2 = [.directions "starbucks"] := by
  refine ⟨by decide, by decide, by decide, ?_⟩
  intro findNearest dirProvider origin
  have hclean : clean_destination "the nearest Starbucks!" = "starbucks" := by decide
  have hgen : is_generic_place_name "starbucks" = false := by decide
  simp only [get_directions, Bool.not_true, Bool.false_eq_true, if_false, hclean,
    hgen]
  unfold directionsPhase
  rcases dirProvider "starbucks" with e | directions
  · rfl
  · rcases directions with _ | ⟨route, rest⟩
    · rfl
    · rcases route with ⟨legs⟩
      rcases legs with _ | ⟨leg, legsrest⟩
      · rfl
      · rfl

/-- C3: when an update's distance to the current step end is below 20 m the
step completes.  On the last step the session undergoes its Arrived
transition — it is removed from the store and the result is the Arrived
payload with the arrival announcement; otherwise the stored index advances
by exactly 1, the announced tier resets to none, and the result is the
StepCompleted payload carrying the next step's instruction as both
instruction and announcement. -/
theorem step_completion_behaviour (dist : QCoord → QCoord → ℚ) (navs : Store)
    (sid : String) (c : QCoord) (nav : NavState)
    (h : navs sid = some nav) (hlt : nav.current_step_index < nav.steps.length)
    (hd : dist c ((nav.steps.get ⟨nav.current_step_index, hlt⟩).end_location) < 20) :
    (nav.current_step_index + 1 = nav.steps.length →
      (update_location dist navs sid c).1 sid = none ∧
      (update_location dist navs sid c).2 = .upd (arrivedUpdate nav.steps.length)) ∧
    (∀ hmid : nav.current_step_index + 1 < nav.steps.length,
      (update_location dist navs sid c).1 sid =
        some { nav with current_step_index := nav.current_step_index + 1,
                        last_announcement := none,
                        last_announced_distance := none } ∧
      (update_location dist navs sid c).2 =
        .upd { status := "step_completed",
               current_step := nav.current_step_index + 1 + 1,
               total_steps := nav.total_steps,
               instruction := (nav.steps.get ⟨nav.current_step_index + 1, hmid⟩).instruction,
               distance_to_next :=
                 ((nav.steps.get ⟨nav.current_step_index + 1, hmid⟩).distance_meters : ℚ),
               should_announce := true,
               announcement :=
                 some (nav.steps.get ⟨nav.current_step_index + 1, hmid⟩).instruction }) := by
  constructor
  · intro hlast
    rw [update_location_complete_last dist navs sid c nav h hlt hd (by omega)]
    exact ⟨Store.pop_self navs sid, rfl⟩
  · intro hmid
    rw [update_location_complete_mid dist navs sid c nav h hlt hd hmid]
    exact ⟨Store.set_self _ _ _, rfl⟩

/-- Witness for C3: an update 15 m from the single step's end removes the
session and returns the Arrived payload. -/
theorem step_completion_behaviour_witness :
    (update_location dconc store0 "s1" ⟨15, 0⟩).1 "s1" = none ∧
    (update_location dconc store0 "s1" ⟨15, 0⟩).2 = .upd (arrivedUpdate 1) :=
  (step_completion_behaviour dconc store0 "s1" ⟨15, 0⟩ nav0 rfl (by decide)
    (by decide)).1 rfl

/-- C4: an update for a session id absent from the store returns the
no-active-session error with the store unchanged (so it cannot create a
session); consequently, after an arrival on the final step removes the
session, a further update for that id returns the same error. -/
theorem update_unknown_session (dist : QCoord → QCoord → ℚ) (sid : String)
    (c cN : QCoord) :
    (∀ navs : Store, navs sid = none →
      update_location dist navs sid c =
        (navs, .err "No active navigation for this session")) ∧
    (∀ (navs : Store) (nav : NavState) (h : navs sid = some nav)
      (hlt : nav.current_step_index < nav.steps.length),
      nav.current_step_index + 1 = nav.steps.length →
      dist c ((nav.steps.get ⟨nav.current_step_index, hlt⟩).end_location) < 20 →
      (update_location dist navs sid c).1 sid = none ∧
      update_location dist (update_location dist navs sid c).1 sid cN =
        ((update_location dist navs sid c).1,
         .err "No active navigation for this session")) := by
  constructor
  · intro navs h
    exact update_location_absent dist navs sid c h
  · intro navs nav h hlt hlast hd
    have h1 : (update_location dist navs sid c).1 sid = none := by
      rw [update_location_complete_last dist navs sid c nav h hlt hd (by omega)]
      exact Store.pop_self navs sid
    exact ⟨h1, update_location_absent dist _ sid cN h1⟩

/-- Witness for C4: updating the empty store errors and leaves it empty;
arriving at the one-step session and updating again yields the same
error. -/
theorem update_unknown_session_witness :
    update_location dconc Store.empty "s1" ⟨0, 0⟩ =
      (Store.empty, .err "No active navigation for this session") ∧
    ((update_location dconc store0 "s1" ⟨15, 0⟩).1 "s1" = none ∧
     update_location dconc (update_location dconc store0 "s1" ⟨15, 0⟩).1 "s1" ⟨95, 0⟩ =
       ((update_location dconc store0 "s1" ⟨15, 0⟩).1,
        .err "No active navigation for this session")) :=
  ⟨(update_unknown_session dconc "s1" ⟨0, 0⟩ ⟨95, 0⟩).1 Store.empty rfl,
   (update_unknown_session dconc "s1" ⟨15, 0⟩ ⟨95, 0⟩).2 store0 nav0 rfl (by decide)
     rfl (by decide)⟩

/-- C5: a freshly started session is stored with `current_step_index = 0`;
across any two batches of location updates the stored index never
decreases, and it never exceeds the number of steps, for as long as the
session remains in the store. -/
theorem currentStepIndex_monotone_bounded (dist : QCoord → QCoord → ℚ)
    (navs0 : Store) (sid : String) (directions : DirectionsResponse)
    (cs1 cs2 : List QCoord) (n m : ℕ)
    (h1 : idxAt (runUpdates dist sid (start_navigation navs0 sid directions).1 cs1)
        sid = some n)
    (h2 : idxAt (runUpdates dist sid
        (runUpdates dist sid (start_navigation navs0 sid directions).1 cs1) cs2)
        sid = some m) :
    idxAt (start_navigation navs0 sid directions).1 sid = some 0 ∧
    n ≤ m ∧ m ≤ directions.steps.length := by
  have hstart : (start_navigation navs0 sid directions).1 sid =
      some { destination := directions.destination, steps := directions.steps,
             current_step_index := 0, total_steps := directions.steps.length,
             status := "active", last_announcement := none,
             last_announced_distance := none } :=
    Store.set_self _ _ _
  rcases runUpdates_present dist sid cs1 _ _ hstart (Nat.zero_le _) with hnone |
    ⟨nav1, hh1, hsteps1, hle1, hb1⟩
  · rw [idxAt, hnone] at h1
    cases h1
  · have hn : n = nav1.current_step_index := by
      rw [idxAt, hh1] at h1
      exact (Option.some_inj.mp h1).symm
    rcases runUpdates_present dist sid cs2 _ nav1 hh1 (by rw [hsteps1]; exact hb1)
      with hnone2 | ⟨nav2, hh2, hsteps2, hle2, hb2⟩
    · rw [idxAt, hnone2] at h2
      cases h2
    · have hm : m = nav2.current_step_index := by
        rw [idxAt, hh2] at h2
        exact (Option.some_inj.mp h2).symm
      refine ⟨by rw [idxAt, hstart]; rfl, ?_, ?_⟩
      · rw [hn, hm]
        exact hle2
      · rw [hm]
        rw [hsteps1] at hb2
        exact hb2

/-- Witness for C5: starting the two-step route, completing step one, then
sending a mid-step fix keeps the index at 1, between 0 and 2. -/
theorem currentStepIndex_monotone_bounded_witness :
    idxAt (start_navigation Store.empty "s1" dirs0).1 "s1" = some 0 ∧
    1 ≤ 1 ∧ 1 ≤ dirs0.steps.length :=
  currentStepIndex_monotone_bounded dconc Store.empty "s1" dirs0
    [⟨15, 2⟩] [⟨95, 3⟩] 1 1 (by decide) (by decide)

/-- Counterexample for C7 as stated: at distance 105 — inside 90..110 —
with no tier recorded yet (so not yet `Near100`), the update does NOT
announce and records `Far` instead of `Near100`; and at the same distance
with tier `Far` (d > 100) the update DOES announce, contradicting the
far-no-announcement half as well. -/
theorem near100_window_counterexample :
    shouldAnnounceOf (update_location dconc store0 "s1" ⟨105, 0⟩).2 = false ∧
    lastAnnAt (update_location dconc store0 "s1" ⟨105, 0⟩).1 "s1" = some (some "far") ∧
    shouldAnnounceOf (update_location dconc storeFar "s1" ⟨105, 0⟩).2 = true := by
  decide

/-- C7 (amended): with the distance d to the current step end in [90, 110]
and the recorded tier not `Near100`, the update announces (in feet below
528 feet, in meters otherwise) and records `Near100` — provided d ≤ 100 or
the recorded tier is already `Far`; when instead d > 100 and the recorded
tier is not `Far`, the update records `Far` and does not announce; and
beyond 110 m with tier `Far` no announcement is produced. -/
theorem near100_window_behaviour (dist : QCoord → QCoord → ℚ) (navs : Store)
    (sid : String) (c : QCoord) (nav : NavState) (d : ℚ)
    (h : navs sid = some nav) (hlt : nav.current_step_index < nav.steps.length)
    (hd : dist c ((nav.steps.get ⟨nav.current_step_index, hlt⟩).end_location) = d) :
    (90 ≤ d → d ≤ 110 → nav.last_announcement ≠ some "100m" →
      (d ≤ 100 ∨ nav.last_announcement = some "far") →
      shouldAnnounceOf (update_location dist navs sid c).2 = true ∧
      lastAnnAt (update_location dist navs sid c).1 sid = some (some "100m") ∧
      announcementOf (update_location dist navs sid c).2 =
        some (if d * (328084 / 100000 : ℚ) < 528
              then feetPhrase (d * (328084 / 100000 : ℚ))
                     (nav.steps.get ⟨nav.current_step_index, hlt⟩).instruction
              else metersPhrase
                     (nav.steps.get ⟨nav.current_step_index, hlt⟩).instruction)) ∧
    (100 < d → nav.last_announcement ≠ some "far" →
      shouldAnnounceOf (update_location dist navs sid c).2 = false ∧
      lastAnnAt (update_location dist navs sid c).1 sid = some (some "far")) ∧
    (110 < d → nav.last_announcement = some "far" →
      shouldAnnounceOf (update_location dist navs sid c).2 = false) := by
  refine ⟨?_, ?_, ?_⟩
  · intro h90 h110 ht hok
    have hnd : ¬ dist c ((nav.steps.get ⟨nav.current_step_index, hlt⟩).end_location) < 20 := by
      rw [hd]; linarith
    rw [update_location_navigating dist navs sid c nav h hlt hnd]
    dsimp only [shouldAnnounceOf, announcementOf, lastAnnAt]
    rw [Store.set_self, hd,
        announce_tiers_fire100 nav.last_announcement d
          (nav.steps.get ⟨nav.current_step_index, hlt⟩).instruction h90 h110 ht hok]
    exact ⟨rfl, rfl, rfl⟩
  · intro h100 ht
    have hnd : ¬ dist c ((nav.steps.get ⟨nav.current_step_index, hlt⟩).end_location) < 20 := by
      rw [hd]; linarith
    rw [update_location_navigating dist navs sid c nav h hlt hnd]
    dsimp only [shouldAnnounceOf, lastAnnAt]
    rw [Store.set_self, hd,
        announce_tiers_far nav.last_announcement d
          (nav.steps.get ⟨nav.current_step_index, hlt⟩).instruction h100 ht]
    exact ⟨rfl, rfl⟩
  · intro h110 ht
    have hnd : ¬ dist c ((nav.steps.get ⟨nav.current_step_index, hlt⟩).end_location) < 20 := by
      rw [hd]; linarith
    rw [update_location_navigating dist navs sid c nav h hlt hnd]
    dsimp only [shouldAnnounceOf]
    rw [hd, ht,
        announce_tiers_far_beyond d
          (nav.steps.get ⟨nav.current_step_index, hlt⟩).instruction h110]

/-- Witness for C7 (amended): distance 95 on a fresh step announces and
records `Near100`. -/
theorem near100_window_behaviour_witness :
    shouldAnnounceOf (update_location dconc store0 "s1" ⟨95, 0⟩).2 = true :=
  ((near100_window_behaviour dconc store0 "s1" ⟨95, 0⟩ nav0 95 rfl (by decide) rfl).1
    (by norm_num) (by norm_num) (by decide) (Or.inl (by norm_num))).1

/-- Counterexample for C1 as stated: within a single step, updates at
distances 95, 50, 95 announce `Near100`, `Near50`, then `Near100` again —
the same tier fires twice in one step, and a higher-distance tier fires
after a lower one, while the step index never changes. -/
theorem tier_refire_counterexample :
    shouldAnnounceOf (update_location dconc store0 "s1" ⟨95, 0⟩).2 = true ∧
    lastAnnAt cstore1 "s1" = some (some "100m") ∧
    shouldAnnounceOf (update_location dconc cstore1 "s1" ⟨50, 0⟩).2 = true ∧
    lastAnnAt cstore2 "s1" = some (some "50m") ∧
    shouldAnnounceOf (update_location dconc cstore2 "s1" ⟨95, 0⟩).2 = true ∧
    lastAnnAt (update_location dconc cstore2 "s1" ⟨95, 0⟩).1 "s1" = some (some "100m") ∧
    idxAt (update_location dconc cstore2 "s1" ⟨95, 0⟩).1 "s1" = some 0 := by
  decide

/-- C1 (amended): tier firing is guarded only by the single most recently
recorded tier.  An update whose distance lies inside the window of the tier
currently recorded does not announce — in particular a repeated update at a
constant distance inside a fired tier returns `shouldAnnounce = false` —
and at or below 100 m an announcing update reaches a fixed point: replaying
the same coordinate any number of further times never announces again.
Tiers need not fire in strictly descending-distance order and may fire more
than once per step once a different tier (or `Far`) has been recorded in
between. -/
theorem announce_tier_guard (dist : QCoord → QCoord → ℚ) (navs : Store)
    (sid : String) (c : QCoord) (nav : NavState) (d : ℚ)
    (h : navs sid = some nav) (hlt : nav.current_step_index < nav.steps.length)
    (hd : dist c ((nav.steps.get ⟨nav.current_step_index, hlt⟩).end_location) = d) :
    ((nav.last_announcement = some "100m" ∧ 90 ≤ d ∧ d ≤ 110) ∨
     (nav.last_announcement = some "50m" ∧ 40 ≤ d ∧ d ≤ 60) ∨
     (nav.last_announcement = some "25m" ∧ 20 ≤ d ∧ d ≤ 30) →
      shouldAnnounceOf (update_location dist navs sid c).2 = false) ∧
    (20 ≤ d → d ≤ 100 →
      shouldAnnounceOf (update_location dist navs sid c).2 = true →
      ∀ k : ℕ, shouldAnnounceOf
        (update_location dist
          (runUpdates dist sid (update_location dist navs sid c).1
            (List.replicate k c)) sid c).2 = false) := by
  constructor
  · intro hcase
    have hnd : ¬ dist c ((nav.steps.get ⟨nav.current_step_index, hlt⟩).end_location) < 20 := by
      rw [hd]
      rcases hcase with ⟨-, h1, -⟩ | ⟨-, h1, -⟩ | ⟨-, h1, -⟩ <;> linarith
    rw [update_location_navigating dist navs sid c nav h hlt hnd]
    dsimp only [shouldAnnounceOf]
    rw [hd]
    rcases hcase with ⟨ht, h1, h2⟩ | ⟨ht, h1, h2⟩ | ⟨ht, h1, h2⟩
    · rw [ht]
      exact announce_tiers_100_nofire d _ h1 h2
    · rw [ht, announce_tiers_50_fixed d _ h1 h2]
    · rw [ht, announce_tiers_25_fixed d _ h1 h2]
  · intro h20 h100 hf k
    have hnd : ¬ dist c ((nav.steps.get ⟨nav.current_step_index, hlt⟩).end_location) < 20 := by
      rw [hd]; linarith
    have hupd := update_location_navigating dist navs sid c nav h hlt hnd
    rw [hupd] at hf
    dsimp only [shouldAnnounceOf] at hf
    rw [hd] at hf
    have hstore : (update_location dist navs sid c).1 sid =
        some { nav with last_announcement :=
          (announce_tiers nav.last_announcement d
            (nav.steps.get ⟨nav.current_step_index, hlt⟩).instruction).1 } := by
      rw [hupd]
      dsimp only
      rw [hd]
      exact Store.set_self _ _ _
    have hlt1 : ({ nav with last_announcement :=
        (announce_tiers nav.last_announcement d
          (nav.steps.get ⟨nav.current_step_index, hlt⟩).instruction).1 } : NavState).current_step_index <
        ({ nav with last_announcement :=
          (announce_tiers nav.last_announcement d
            (nav.steps.get ⟨nav.current_step_index, hlt⟩).instruction).1 } : NavState).steps.length := hlt
    have hfix : announce_tiers
        (announce_tiers nav.last_announcement d
          (nav.steps.get ⟨nav.current_step_index, hlt⟩).instruction).1 d
        (nav.steps.get ⟨nav.current_step_index, hlt⟩).instruction =
        ((announce_tiers nav.last_announcement d
          (nav.steps.get ⟨nav.current_step_index, hlt⟩).instruction).1, false, none) := by
      rcases announce_tiers_fire_char nav.last_announcement d
          (nav.steps.get ⟨nav.current_step_index, hlt⟩).instruction hf with
        ⟨he, h1, h2⟩ | ⟨he, h1, h2⟩ | ⟨he, h1, h2⟩
      · rw [he]
        exact announce_tiers_100_fixed d _ h1 h100
      · rw [he]
        exact announce_tiers_50_fixed d _ h1 h2
      · rw [he]
        exact announce_tiers_25_fixed d _ h1 h2
    have hnd1 : ¬ dist c ((({ nav with last_announcement :=
        (announce_tiers nav.last_announcement d
          (nav.steps.get ⟨nav.current_step_index, hlt⟩).instruction).1 } : NavState).steps.get
          ⟨({ nav with last_announcement :=
            (announce_tiers nav.last_announcement d
              (nav.steps.get ⟨nav.current_step_index, hlt⟩).instruction).1 } : NavState).current_step_index,
            hlt1⟩).end_location) < 20 := hnd
    have hfix' : announce_tiers
        ({ nav with last_announcement :=
          (announce_tiers nav.last_announcement d
            (nav.steps.get ⟨nav.current_step_index, hlt⟩).instruction).1 } : NavState).last_announcement
        (dist c ((({ nav with last_announcement :=
          (announce_tiers nav.last_announcement d
            (nav.steps.get ⟨nav.current_step_index, hlt⟩).instruction).1 } : NavState).steps.get
          ⟨({ nav with last_announcement :=
            (announce_tiers nav.last_announcement d
              (nav.steps.get ⟨nav.current_step_index, hlt⟩).instruction).1 } : NavState).current_step_index,
            hlt1⟩).end_location))
        ((({ nav with last_announcement :=
          (announce_tiers nav.last_announcement d
            (nav.steps.get ⟨nav.current_step_index, hlt⟩).instruction).1 } : NavState).steps.get
          ⟨({ nav with last_announcement :=
            (announce_tiers nav.last_announcement d
              (nav.steps.get ⟨nav.current_step_index, hlt⟩).instruction).1 } : NavState).current_step_index,
            hlt1⟩).instruction) =
        (({ nav with last_announcement :=
          (announce_tiers nav.last_announcement d
            (nav.steps.get ⟨nav.current_step_index, hlt⟩).instruction).1 } : NavState).last_announcement,
         false, none) := by
      show announce_tiers
        (announce_tiers nav.last_announcement d
          (nav.steps.get ⟨nav.current_step_index, hlt⟩).instruction).1
        (dist c ((nav.steps.get ⟨nav.current_step_index, hlt⟩).end_location))
        ((nav.steps.get ⟨nav.current_step_index, hlt⟩).instruction) = _
      rw [hd]
      exact hfix
    have hrep := runUpdates_replicate_fixed dist sid c _ hlt1 hnd1 hfix' k _ hstore
    exact (update_location_fixed dist _ sid c _ hrep hlt1 hnd1 hfix').2

/-- Witness for C1 (amended): with the 50 m tier already recorded, an
update at distance 50 does not announce. -/
theorem announce_tier_guard_witness :
    shouldAnnounceOf (update_location dconc store50 "s1" ⟨50, 0⟩).2 = false :=
  (announce_tier_guard dconc store50 "s1" ⟨50, 0⟩ nav50 50 rfl (by decide) rfl).1
    (Or.inr (Or.inl ⟨rfl, by norm_num, by norm_num⟩))

end NewSight
